import Mathlib

/-!
# Verification of the pyminiaudio glue source (`src/miniaudio.c`)

The repository's own code is a bootstrap file: preprocessor configuration
pulling in third-party single-header audio libraries, a Windows portability
shim for `setenv`, and a no-op initialization hook `init_miniaudio`.

This file gives a shallow embedding of that code and, for the parts of the
specification that describe the implied streaming-audio engine whose code is
not present in the repository (ring buffer, decoder factory, playback state
machine, process-wide lifecycle), definitions modelled from the spec's words.
Theorems settle the frozen claims against these definitions.  Definitions
come first, then helper lemmas and the claim theorems.
-/

/-! ## Environment model and the Windows `setenv` shim

The C shim (src/miniaudio.c, lines 37-46):

  int setenv(const char *name, const char *value, int overwrite)
  {
      int errcode = 0;
      if(!overwrite) {
          size_t envsize = 0;
          errcode = getenv_s(&envsize, NULL, 0, name);
          if(errcode || envsize) return errcode;
      }
      return _putenv_s(name, value);
  }

The process environment is modelled as an association list of
(name, value) pairs.  `getenv_s` with a NULL buffer and size 0 is the MSVC
size query: on success it returns error code 0 and stores the length of the
value (including the terminating NUL) in `envsize`, or 0 if the variable is
absent.  `_putenv_s` sets the variable and returns its error code (0 on
success in this model).  Because the real `getenv_s` may also fail with a
nonzero error code for reasons outside this environment model (runtime
constraint violations), the shim's control flow is embedded as a core
function parameterised over the pair `getenv_s` returned; the full `setenv`
plugs in the size-query model.
-/

/-- The process environment: an association list of (name, value) pairs. -/
abbrev Env : Type := List (String × String)

/-- Look up a variable in the environment (first binding wins). -/
def lookupEnv (env : Env) (name : String) : Option String :=
  match env with
  | [] => none
  | (n, v) :: rest => if n = name then some v else lookupEnv rest name

/-- Replace the binding for `name` if present, else append it: the effect of
`_putenv_s` on the environment. -/
def setEnvVar (env : Env) (name value : String) : Env :=
  match env with
  | [] => [(name, value)]
  | (n, v) :: rest =>
      if n = name then (name, value) :: rest
      else (n, v) :: setEnvVar rest name value

/-- Model of the MSVC `getenv_s(&envsize, NULL, 0, name)` size query:
returns (error code, required size).  On this well-formed call the error
code is 0; the size is the value's length plus one for the terminating NUL
when the variable exists, and 0 when it does not. -/
def getenv_s (env : Env) (name : String) : Int × Nat :=
  match lookupEnv env name with
  | some v => (0, v.length + 1)
  | none => (0, 0)

/-- Model of `_putenv_s(name, value)`: sets the variable in the environment
and returns error code 0. -/
def putenv_s (env : Env) (name value : String) : Int × Env :=
  (0, setEnvVar env name value)

/-- Outcome of one call to the `setenv` shim: the returned error code, the
final environment, and which of the two external calls were made. -/
structure SetenvResult where
  ret : Int
  env : Env
  calledGetenv : Bool
  calledPutenv : Bool
  deriving Repr, DecidableEq

/-- The control flow of the Windows `setenv` shim, parameterised over the
pair returned by the `getenv_s` size query (an external call whose failure
modes the shim does not control).  Mirrors the C body line by line:
with `overwrite == 0` the query runs and a nonzero error code or a nonzero
size causes an early return of the error code; otherwise `_putenv_s` runs
and its result is returned. -/
def setenvCore (env : Env) (name value : String) (overwrite : Int)
    (getenvRes : Int × Nat) : SetenvResult :=
  if overwrite = 0 then
    let errcode := getenvRes.1
    let envsize := getenvRes.2
    if errcode ≠ 0 ∨ envsize ≠ 0 then
      { ret := errcode, env := env, calledGetenv := true, calledPutenv := false }
    else
      let r := putenv_s env name value
      { ret := r.1, env := r.2, calledGetenv := true, calledPutenv := true }
  else
    let r := putenv_s env name value
    { ret := r.1, env := r.2, calledGetenv := false, calledPutenv := true }

/-- The Windows `setenv` shim: the core control flow with the `getenv_s`
size query of the modelled environment plugged in. -/
def setenv (env : Env) (name value : String) (overwrite : Int) : SetenvResult :=
  setenvCore env name value overwrite (getenv_s env name)

/-! ## The no-op initialization hook `init_miniaudio`

The C function (src/miniaudio.c, lines 49-61) has an empty body; its only
content is a comment recalling that older versions called
setenv("PULSE_LATENCY_MSEC", "100", 0) and that no specific init is needed
now.  Program and platform state visible to this translation unit is
modelled as a `World`: the process environment together with a counter of
audio-subsystem setup actions performed.  An empty function body is the
identity on this state. -/

/-- Program and platform state visible to the glue code: the process
environment and a count of audio-subsystem setup actions performed. -/
structure World where
  env : Env
  audioSetupCount : Nat
  deriving Repr, DecidableEq

/-- The `init_miniaudio` hook.  Its body in the source is empty (comments
only), so it is the identity on the world state. -/
def init_miniaudio (w : World) : World := w

/-! ## Process-wide lifecycle

The spec pairs the one-time init call with a teardown call and fixes the
lifecycle: init before any open(), teardown after all sessions are closed.
The repository's code contains only `init_miniaudio` (a no-op); the teardown
call and the open/close sessions belong to the implied engine whose code is
not in the repository, so they are modelled from the spec. -/

/-- Modelled from the spec: the teardown call paired with the process-wide
initialization.  The current code needs no specific init (see the comment in
`init_miniaudio`), so the paired teardown likewise releases nothing and is
the identity on the world state. -/
def teardown_miniaudio (w : World) : World := w

/-- Events of the process-wide lifecycle: the one-time init, opening and
closing playback sessions, and the paired teardown. -/
inductive LifecycleEvent where
  | init
  | openSession
  | closeSession
  | teardown
  deriving Repr, DecidableEq

/-- Modelled from the spec: a lifecycle trace is valid when init comes
before any open(), teardown comes only after all sessions are closed, and
nothing follows teardown.  Tracked state: whether init has happened,
whether teardown has happened, and the number of open sessions. -/
def lifecycleOkFrom (inited torndown : Bool) (openCount : Nat) :
    List LifecycleEvent → Bool
  | [] => true
  | .init :: rest =>
      !torndown && lifecycleOkFrom true torndown openCount rest
  | .openSession :: rest =>
      inited && !torndown && lifecycleOkFrom inited torndown (openCount + 1) rest
  | .closeSession :: rest =>
      decide (0 < openCount) && !torndown &&
        lifecycleOkFrom inited torndown (openCount - 1) rest
  | .teardown :: rest =>
      inited && !torndown && decide (openCount = 0) &&
        lifecycleOkFrom inited true openCount rest

/-- A lifecycle trace started from the initial process state. -/
def lifecycleOk (trace : List LifecycleEvent) : Bool :=
  lifecycleOkFrom false false 0 trace

/-! ## Ring buffer

Modelled from the spec (section 4.4): a single-producer/single-consumer
queue of fixed capacity with monotonically increasing write and read
cursors compared modulo the capacity.  Physical storage is a map from slot
index (absolute position modulo capacity) to sample; `tryWrite` may write
fewer frames than requested when near-full and never blocks; `tryRead`
never blocks and pads the requested frame count with silence on underrun.
Both operations are total functions of the buffer state, which is the
formal counterpart of "never blocks". -/

/-- One interleaved sample. -/
abbrev Sample : Type := Int

/-- The silence sample emitted on underrun. -/
def silence : Sample := 0

/-- Modelled from the spec: the SPSC ring buffer.  `phys` is the physical
storage indexed by slot (absolute position modulo `capacity`); the cursors
are monotonically increasing absolute frame counts. -/
structure RingBuffer where
  capacity : Nat
  phys : Nat → Sample
  writeCursor : Nat
  readCursor : Nat

/-- Store a list of frames into physical storage starting at absolute
position `pos`, wrapping modulo `cap`. -/
def storeFrom (phys : Nat → Sample) (cap pos : Nat) :
    List Sample → (Nat → Sample)
  | [] => phys
  | s :: rest =>
      storeFrom (fun i => if i = pos % cap then s else phys i) cap (pos + 1) rest

/-- Frames currently in the buffer (written and not yet read). -/
def RingBuffer.used (rb : RingBuffer) : Nat :=
  rb.writeCursor - rb.readCursor

/-- Modelled from the spec: `tryWrite(frames) -> framesWritten`.  Writes
min(requested, free) frames at the write cursor and advances it; may write
fewer than requested if near-full; never blocks, and never touches slots
holding unread data. -/
def RingBuffer.tryWrite (rb : RingBuffer) (frames : List Sample) :
    Nat × RingBuffer :=
  let free := rb.capacity - rb.used
  let n := min frames.length free
  (n, { rb with
          phys := storeFrom rb.phys rb.capacity rb.writeCursor (frames.take n),
          writeCursor := rb.writeCursor + n })

/-- Modelled from the spec: `tryRead(maxFrames)`.  Returns the output
buffer of length `maxFrames` (read data followed by silence padding on
underrun), the number of frames actually read, and the advanced buffer;
never blocks. -/
def RingBuffer.tryRead (rb : RingBuffer) (maxFrames : Nat) :
    List Sample × Nat × RingBuffer :=
  let n := min maxFrames rb.used
  let data := (List.range n).map (fun i => rb.phys ((rb.readCursor + i) % rb.capacity))
  (data ++ List.replicate (maxFrames - n) silence, n,
   { rb with readCursor := rb.readCursor + n })

/-- One producer or consumer call on the ring buffer; a list of these is an
interleaving of the two threads' calls (the spec's single consistent
linearization of produced vs. consumed frames). -/
inductive RBOp where
  | write (frames : List Sample)
  | read (maxFrames : Nat)

/-- State transition of one ring-buffer call. -/
def RingBuffer.step (rb : RingBuffer) : RBOp → RingBuffer
  | .write fs => (rb.tryWrite fs).2
  | .read m => (rb.tryRead m).2.2

/-- Run an interleaving of calls from a starting buffer state. -/
def RingBuffer.run (rb : RingBuffer) : List RBOp → RingBuffer
  | [] => rb
  | op :: ops => (rb.step op).run ops

/-- The ring-buffer invariant from the spec's data model: positive
capacity, the read cursor never passes the write cursor, and write cursor
minus read cursor never exceeds the capacity. -/
def RingBuffer.inv (rb : RingBuffer) : Prop :=
  0 < rb.capacity ∧ rb.readCursor ≤ rb.writeCursor ∧
    rb.writeCursor - rb.readCursor ≤ rb.capacity

/-! ## Format sniffing and decoder factory

Modelled from the spec (section 4.2): the factory reads a bounded header
prefix and probes the registered backends in the fixed priority order WAV,
FLAC, MP3, Vorbis/Ogg, selecting the first match; if no backend matches it
returns UnsupportedFormat.  The probes check the formats' magic numbers on
the header bytes. -/

/-- The registered decoder backends. -/
inductive BackendId where
  | wav
  | flac
  | mp3
  | vorbis
  deriving Repr, DecidableEq

/-- A bounded header prefix: a list of byte values. -/
abbrev Header : Type := List Nat

/-- Modelled from the spec: WAV probe — RIFF container magic "RIFF" at
offset 0 and "WAVE" at offset 8. -/
def probeWav (h : Header) : Bool :=
  h.take 4 == [0x52, 0x49, 0x46, 0x46] &&
    (h.drop 8).take 4 == [0x57, 0x41, 0x56, 0x45]

/-- Modelled from the spec: FLAC probe — stream marker "fLaC". -/
def probeFlac (h : Header) : Bool :=
  h.take 4 == [0x66, 0x4C, 0x61, 0x43]

/-- Modelled from the spec: MP3 probe — an ID3v2 tag "ID3" or the weaker
frame-sync signature (0xFF followed by a byte with the top three bits
set). -/
def probeMp3 (h : Header) : Bool :=
  h.take 3 == [0x49, 0x44, 0x33] ||
    (match h with
     | b0 :: b1 :: _ => b0 == 0xFF && decide (0xE0 ≤ b1)
     | _ => false)

/-- Modelled from the spec: Vorbis/Ogg probe — Ogg capture pattern
"OggS". -/
def probeVorbis (h : Header) : Bool :=
  h.take 4 == [0x4F, 0x67, 0x67, 0x53]

/-- A registered decoder backend: its identity and its probe. -/
structure DecoderBackend where
  id : BackendId
  probe : Header → Bool

/-- Modelled from the spec: the flat backend registry in fixed priority
order — strong magic numbers first (WAV, FLAC), then the weaker-signatured
MP3, then Vorbis/Ogg. -/
def backendRegistry : List DecoderBackend :=
  [⟨.wav, probeWav⟩, ⟨.flac, probeFlac⟩, ⟨.mp3, probeMp3⟩, ⟨.vorbis, probeVorbis⟩]

/-- The factory's failure: no registered backend matched. -/
inductive FactoryError where
  | UnsupportedFormat
  deriving Repr, DecidableEq

/-- Modelled from the spec: the decoder factory's open — probe each
registered backend in priority order, select the first match, otherwise
return UnsupportedFormat. -/
def factoryOpen (header : Header) : Except FactoryError BackendId :=
  match backendRegistry.find? (fun b => b.probe header) with
  | some b => Except.ok b.id
  | none => Except.error FactoryError.UnsupportedFormat

/-! ## Playback session state machine

Modelled from the spec (sections 3, 4.6, 7): a PlaybackSession aggregates
decoder handle, device handle, ring buffer, current state and error slot.
close() tears down in reverse acquisition order — device stop/close,
decoder close, ring buffer release — and reaches Closed from any state,
including Errored. -/

/-- The playback engine's lifecycle states. -/
inductive SessionState where
  | Closed
  | Opening
  | Ready
  | Playing
  | Paused
  | Stopping
  | Errored
  deriving Repr, DecidableEq

/-- Unrecoverable errors deposited in the session's error slot. -/
inductive EngineError where
  | UnsupportedFormat
  | DecodeMalformed
  | DeviceError
  deriving Repr, DecidableEq

/-- Modelled from the spec: the session aggregate — which of the three
resources (device, decoder, ring buffer) are currently held, the lifecycle
state, and the error slot. -/
structure PlaybackSession where
  state : SessionState
  deviceOpen : Bool
  decoderOpen : Bool
  ringBufferAllocated : Bool
  errorSlot : Option EngineError
  deriving Repr, DecidableEq

/-- Device stop/close: releases the device handle. -/
def releaseDevice (s : PlaybackSession) : PlaybackSession :=
  { s with deviceOpen := false }

/-- Decoder close: releases the decoder handle. -/
def closeDecoder (s : PlaybackSession) : PlaybackSession :=
  { s with decoderOpen := false }

/-- Ring buffer release. -/
def releaseRingBuffer (s : PlaybackSession) : PlaybackSession :=
  { s with ringBufferAllocated := false }

/-- Modelled from the spec: close() — tear down in reverse acquisition
order (device stop/close, then decoder close, then ring buffer release) and
enter the Closed state.  Defined for every state, including Errored, and
never fails. -/
def PlaybackSession.close (s : PlaybackSession) : PlaybackSession :=
  let s1 := releaseDevice s
  let s2 := closeDecoder s1
  let s3 := releaseRingBuffer s2
  { s3 with state := SessionState.Closed }

/-- The resource-count assertion from the spec's testable properties: how
many of the three resources are still held. -/
def resourceCount (s : PlaybackSession) : Nat :=
  (if s.deviceOpen then 1 else 0) + (if s.decoderOpen then 1 else 0) +
    (if s.ringBufferAllocated then 1 else 0)

/-! ## Helper lemmas -/

/-- Two absolute positions less than one capacity apart land in different
physical slots. -/
theorem mod_ne_of_lt_of_sub_lt (cap p q : Nat) (hpq : p < q)
    (hlt : q - p < cap) : q % cap ≠ p % cap := by
  intro h
  have hmod : p ≡ q [MOD cap] := h.symm
  have hdvd : cap ∣ q - p := (Nat.modEq_iff_dvd' (Nat.le_of_lt hpq)).mp hmod
  have hle : cap ≤ q - p := Nat.le_of_dvd (Nat.sub_pos_of_lt hpq) hdvd
  omega

/-- `storeFrom` leaves untouched every slot outside the written range. -/
theorem storeFrom_eq_of_forall_ne (cap : Nat) (frames : List Sample)
    (phys : Nat → Sample) (pos j : Nat)
    (h : ∀ i, i < frames.length → (pos + i) % cap ≠ j) :
    storeFrom phys cap pos frames j = phys j := by
  induction frames generalizing phys pos with
  | nil => rfl
  | cons s rest ih =>
      have h0 : pos % cap ≠ j := by
        have := h 0 (Nat.succ_pos _)
        simpa using this
      have hrest : ∀ i, i < rest.length → (pos + 1 + i) % cap ≠ j := by
        intro i hi
        have := h (i + 1) (by simpa using Nat.succ_lt_succ hi)
        have harith : pos + 1 + i = pos + (i + 1) := by omega
        simpa [harith] using this
      calc storeFrom (fun i => if i = pos % cap then s else phys i) cap (pos + 1) rest j
          = (fun i => if i = pos % cap then s else phys i) j :=
            ih (fun i => if i = pos % cap then s else phys i) (pos + 1) hrest
        _ = phys j := by simp [Ne.symm h0]

/-- `tryWrite` preserves the ring-buffer invariant. -/
theorem tryWrite_inv (rb : RingBuffer) (fs : List Sample) (h : rb.inv) :
    ((rb.tryWrite fs).2).inv := by
  obtain ⟨hcap, hle, hbound⟩ := h
  refine ⟨hcap, ?_, ?_⟩ <;>
    simp only [RingBuffer.tryWrite, RingBuffer.used] <;> omega

/-- `tryRead` preserves the ring-buffer invariant. -/
theorem tryRead_inv (rb : RingBuffer) (m : Nat) (h : rb.inv) :
    ((rb.tryRead m).2.2).inv := by
  obtain ⟨hcap, hle, hbound⟩ := h
  refine ⟨hcap, ?_, ?_⟩ <;>
    simp only [RingBuffer.tryRead, RingBuffer.used] <;> omega

/-- Every single call preserves the ring-buffer invariant. -/
theorem step_inv (rb : RingBuffer) (op : RBOp) (h : rb.inv) :
    (rb.step op).inv := by
  cases op with
  | write fs => exact tryWrite_inv rb fs h
  | read m => exact tryRead_inv rb m h

/-- Any interleaving of calls preserves the ring-buffer invariant. -/
theorem run_inv (ops : List RBOp) (rb : RingBuffer) (h : rb.inv) :
    (rb.run ops).inv := by
  induction ops generalizing rb with
  | nil => exact h
  | cons op rest ih => exact ih (rb.step op) (step_inv rb op h)

/-- Under the invariant, `tryWrite` does not change any physical slot
holding unread data (positions between the read and write cursors). -/
theorem tryWrite_preserves_unread (rb : RingBuffer) (fs : List Sample)
    (h : rb.inv) (p : Nat) (hp1 : rb.readCursor ≤ p) (hp2 : p < rb.writeCursor) :
    ((rb.tryWrite fs).2).phys (p % rb.capacity) = rb.phys (p % rb.capacity) := by
  obtain ⟨hcap, hle, hbound⟩ := h
  simp only [RingBuffer.tryWrite]
  apply storeFrom_eq_of_forall_ne
  intro i hi
  have hilen : i < min fs.length (rb.capacity - rb.used) := by
    simpa [List.length_take] using hi
  have hfree : i < rb.capacity - rb.used := lt_of_lt_of_le hilen (Nat.min_le_right _ _)
  apply mod_ne_of_lt_of_sub_lt
  · omega
  · simp only [RingBuffer.used] at hfree
    omega

/-! ## Claim theorems -/

/-- C1: if the Windows setenv shim is called with overwrite == 0 and the
named variable already exists (the getenv_s existence query returns error
code 0 and a nonzero size), then setenv returns 0 without calling
_putenv_s, and the environment is left unchanged. -/
theorem setenv_no_overwrite_existing (env : Env) (name value : String)
    (herr : (getenv_s env name).1 = 0) (hsize : (getenv_s env name).2 ≠ 0) :
    (setenv env name value 0).ret = 0 ∧
    (setenv env name value 0).calledPutenv = false ∧
    (setenv env name value 0).env = env := by
  simp [setenv, setenvCore, herr, hsize]

/-- Witness for C1: with environment [("PATH", "x")] the variable "PATH"
exists, so setenv with overwrite 0 returns 0, makes no _putenv_s call and
leaves the environment unchanged. -/
theorem setenv_no_overwrite_existing_witness :
    (getenv_s [("PATH", "x")] "PATH").1 = 0 ∧
    (getenv_s [("PATH", "x")] "PATH").2 ≠ 0 ∧
    (setenv [("PATH", "x")] "PATH" "y" 0).ret = 0 ∧
    (setenv [("PATH", "x")] "PATH" "y" 0).calledPutenv = false ∧
    (setenv [("PATH", "x")] "PATH" "y" 0).env = [("PATH", "x")] := by
  refine ⟨by decide, by decide, ?_⟩
  exact setenv_no_overwrite_existing [("PATH", "x")] "PATH" "y"
    (by decide) (by decide)

/-- C2: with overwrite nonzero the shim unconditionally delegates to
_putenv_s with the given name and value, performing no prior existence
check (no getenv_s call), and returns _putenv_s's result. -/
theorem setenv_overwrite_delegates (env : Env) (name value : String)
    (overwrite : Int) (h : overwrite ≠ 0) :
    (setenv env name value overwrite).ret = (putenv_s env name value).1 ∧
    (setenv env name value overwrite).env = (putenv_s env name value).2 ∧
    (setenv env name value overwrite).calledPutenv = true ∧
    (setenv env name value overwrite).calledGetenv = false := by
  simp [setenv, setenvCore, h]

/-- Witness for C2: with overwrite = 1 the shim calls _putenv_s and sets
the variable. -/
theorem setenv_overwrite_delegates_witness :
    (1 : Int) ≠ 0 ∧
    (setenv [("PATH", "x")] "PATH" "y" 1).ret =
      (putenv_s [("PATH", "x")] "PATH" "y").1 ∧
    (setenv [("PATH", "x")] "PATH" "y" 1).env =
      (putenv_s [("PATH", "x")] "PATH" "y").2 ∧
    (setenv [("PATH", "x")] "PATH" "y" 1).calledPutenv = true ∧
    (setenv [("PATH", "x")] "PATH" "y" 1).calledGetenv = false := by
  refine ⟨by decide, ?_⟩
  exact setenv_overwrite_delegates [("PATH", "x")] "PATH" "y" 1 (by decide)

/-- C3: calling init_miniaudio has no observable effect: it modifies no
program or platform state and returns; in particular it performs no
environment-variable or audio-subsystem setup. -/
theorem init_miniaudio_no_effect (w : World) :
    init_miniaudio w = w ∧
    (init_miniaudio w).env = w.env ∧
    (init_miniaudio w).audioSetupCount = w.audioSetupCount :=
  ⟨rfl, rfl, rfl⟩

/-- C4: with overwrite == 0, if the getenv_s existence query returns a
nonzero error code, the shim returns that error code and the environment is
unchanged; no _putenv_s call is made on this error path.  Stated over the
core control flow parameterised by the getenv_s result, since the modelled
size query itself always succeeds. -/
theorem setenv_getenv_error_path (env : Env) (name value : String)
    (errcode : Int) (envsize : Nat) (herr : errcode ≠ 0) :
    (setenvCore env name value 0 (errcode, envsize)).ret = errcode ∧
    (setenvCore env name value 0 (errcode, envsize)).env = env ∧
    (setenvCore env name value 0 (errcode, envsize)).calledPutenv = false := by
  simp [setenvCore, herr]

/-- Witness for C4: a getenv_s failure with error code 22 (EINVAL) makes
the shim return 22, leave the environment unchanged and skip _putenv_s. -/
theorem setenv_getenv_error_path_witness :
    (22 : Int) ≠ 0 ∧
    (setenvCore [] "A" "B" 0 (22, 0)).ret = 22 ∧
    (setenvCore [] "A" "B" 0 (22, 0)).env = [] ∧
    (setenvCore [] "A" "B" 0 (22, 0)).calledPutenv = false := by
  refine ⟨by decide, ?_⟩
  exact setenv_getenv_error_path [] "A" "B" 22 0 (by decide)

/-- C5: the process-wide initialization call is idempotent (calling it
twice equals calling it once), it is paired with a teardown call, and the
lifecycle init-open-close-teardown is valid: every open() comes after init
and teardown comes after all sessions are closed, while an open() before
init or a teardown with a session still open is rejected. -/
theorem init_idempotent_paired_lifecycle (w : World) :
    init_miniaudio (init_miniaudio w) = init_miniaudio w ∧
    teardown_miniaudio (init_miniaudio w) = w ∧
    lifecycleOk [.init, .openSession, .closeSession, .teardown] = true ∧
    lifecycleOk [.openSession] = false ∧
    lifecycleOk [.init, .openSession, .teardown] = false :=
  ⟨rfl, rfl, by decide, by decide, by decide⟩

/-- C6: from every state of the PlaybackSession state machine, including
Errored, close() always succeeds (it is a total function), reaches the
Closed state, releases all three resources (device, decoder, ring buffer,
so the resource count is zero), and is idempotent. -/
theorem close_from_any_state (s : PlaybackSession) :
    (s.close).state = SessionState.Closed ∧
    (s.close).deviceOpen = false ∧
    (s.close).decoderOpen = false ∧
    (s.close).ringBufferAllocated = false ∧
    resourceCount s.close = 0 ∧
    s.close.close = s.close := by
  simp [PlaybackSession.close, releaseDevice, closeDecoder, releaseRingBuffer,
    resourceCount]

/-- C7: tryRead on an empty ring buffer (write cursor equal to read
cursor) returns a silence-filled output of the requested frame count,
reads zero frames, and leaves the buffer unchanged; the call is a total
function of the buffer state, so it never blocks. -/
theorem tryRead_empty_silence (rb : RingBuffer) (maxFrames : Nat)
    (h : rb.writeCursor = rb.readCursor) :
    (rb.tryRead maxFrames).1 = List.replicate maxFrames silence ∧
    (rb.tryRead maxFrames).2.1 = 0 ∧
    (rb.tryRead maxFrames).2.2 = rb := by
  have hused : rb.used = 0 := by simp [RingBuffer.used, h]
  refine ⟨?_, ?_, ?_⟩ <;> simp [RingBuffer.tryRead, hused]

/-- Witness for C7: reading 3 frames from a fresh empty 4-frame buffer
yields three silence samples, zero frames read and an unchanged buffer. -/
theorem tryRead_empty_silence_witness :
    ((⟨4, fun _ => silence, 0, 0⟩ : RingBuffer).tryRead 3).1 =
      List.replicate 3 silence ∧
    ((⟨4, fun _ => silence, 0, 0⟩ : RingBuffer).tryRead 3).2.1 = 0 ∧
    ((⟨4, fun _ => silence, 0, 0⟩ : RingBuffer).tryRead 3).2.2 =
      (⟨4, fun _ => silence, 0, 0⟩ : RingBuffer) :=
  tryRead_empty_silence ⟨4, fun _ => silence, 0, 0⟩ 3 rfl

/-- C8: the decoder factory probes the registered backends in the fixed
priority order WAV, FLAC, MP3, Vorbis/Ogg and selects the first backend
whose probe matches; it returns UnsupportedFormat if and only if no
backend's probe matches the header. -/
theorem factoryOpen_priority (header : Header) :
    factoryOpen header =
      (if probeWav header then Except.ok BackendId.wav
       else if probeFlac header then Except.ok BackendId.flac
       else if probeMp3 header then Except.ok BackendId.mp3
       else if probeVorbis header then Except.ok BackendId.vorbis
       else Except.error FactoryError.UnsupportedFormat) ∧
    (factoryOpen header = Except.error FactoryError.UnsupportedFormat ↔
      probeWav header = false ∧ probeFlac header = false ∧
        probeMp3 header = false ∧ probeVorbis header = false) := by
  cases hw : probeWav header <;> cases hf : probeFlac header <;>
    cases hm : probeMp3 header <;> cases hv : probeVorbis header <;>
      simp [factoryOpen, backendRegistry, List.find?, hw, hf, hm, hv]

/-- C9: for any interleaving of tryWrite/tryRead calls starting from a
buffer satisfying the invariant, the invariant keeps holding (write cursor
minus read cursor never exceeds the capacity), any further tryRead never
moves the read cursor past the write cursor (no data is read before it is
written), and any further tryWrite leaves every physical slot holding
unread data unchanged (no write overwrites unread data). -/
theorem ringBuffer_interleaving_safe (rb : RingBuffer) (ops : List RBOp)
    (h : rb.inv) :
    (rb.run ops).inv ∧
    (∀ m, ((rb.run ops).tryRead m).2.2.readCursor ≤ (rb.run ops).writeCursor) ∧
    (∀ fs p, (rb.run ops).readCursor ≤ p → p < (rb.run ops).writeCursor →
      (((rb.run ops).tryWrite fs).2).phys (p % (rb.run ops).capacity) =
        (rb.run ops).phys (p % (rb.run ops).capacity)) := by
  have hinv := run_inv ops rb h
  obtain ⟨hcap, hle, hbound⟩ := hinv
  refine ⟨⟨hcap, hle, hbound⟩, ?_, ?_⟩
  · intro m
    simp only [RingBuffer.tryRead, RingBuffer.used]
    omega
  · intro fs p hp1 hp2
    exact tryWrite_preserves_unread (rb.run ops) fs ⟨hcap, hle, hbound⟩ p hp1 hp2

/-- Witness for C9: a fresh 4-frame buffer satisfies the invariant, and
after the interleaving write [1, 2]; read 1 the invariant still holds, the
read cursor cannot pass the write cursor, and writes do not touch the slot
holding the one unread frame. -/
theorem ringBuffer_interleaving_safe_witness :
    ((⟨4, fun _ => silence, 0, 0⟩ : RingBuffer).run
        [RBOp.write [1, 2], RBOp.read 1]).inv ∧
    (∀ m, (((⟨4, fun _ => silence, 0, 0⟩ : RingBuffer).run
        [RBOp.write [1, 2], RBOp.read 1]).tryRead m).2.2.readCursor ≤
      ((⟨4, fun _ => silence, 0, 0⟩ : RingBuffer).run
        [RBOp.write [1, 2], RBOp.read 1]).writeCursor) ∧
    (∀ fs p,
      ((⟨4, fun _ => silence, 0, 0⟩ : RingBuffer).run
        [RBOp.write [1, 2], RBOp.read 1]).readCursor ≤ p →
      p < ((⟨4, fun _ => silence, 0, 0⟩ : RingBuffer).run
        [RBOp.write [1, 2], RBOp.read 1]).writeCursor →
      ((((⟨4, fun _ => silence, 0, 0⟩ : RingBuffer).run
          [RBOp.write [1, 2], RBOp.read 1]).tryWrite fs).2).phys
          (p % ((⟨4, fun _ => silence, 0, 0⟩ : RingBuffer).run
            [RBOp.write [1, 2], RBOp.read 1]).capacity) =
        ((⟨4, fun _ => silence, 0, 0⟩ : RingBuffer).run
          [RBOp.write [1, 2], RBOp.read 1]).phys
          (p % ((⟨4, fun _ => silence, 0, 0⟩ : RingBuffer).run
            [RBOp.write [1, 2], RBOp.read 1]).capacity)) :=
  ringBuffer_interleaving_safe ⟨4, fun _ => silence, 0, 0⟩
    [RBOp.write [1, 2], RBOp.read 1] ⟨by decide, by decide, by decide⟩

/-- C10: the Windows setenv shim is deterministic: for a fixed prior
environment and fixed arguments, any two runs return the same value and
leave the environment in the same final state. -/
theorem setenv_deterministic (env : Env) (name value : String)
    (overwrite : Int) (r1 r2 : SetenvResult)
    (h1 : setenv env name value overwrite = r1)
    (h2 : setenv env name value overwrite = r2) :
    r1.ret = r2.ret ∧ r1.env = r2.env := by
  subst h1; subst h2; exact ⟨rfl, rfl⟩

/-- Witness for C10: two runs of setenv on the same input agree on the
return code and the final environment. -/
theorem setenv_deterministic_witness :
    (setenv [] "A" "B" 1).ret = (setenv [] "A" "B" 1).ret ∧
    (setenv [] "A" "B" 1).env = (setenv [] "A" "B" 1).env :=
  setenv_deterministic [] "A" "B" 1 (setenv [] "A" "B" 1)
    (setenv [] "A" "B" 1) rfl rfl
